import Mathlib

set_option maxRecDepth 100000

/-
Verification of the cohort-analysis pipeline of `pandas-business`
(`src/pandas_business/cohorts.py`).

Shallow embedding conventions:
  * An instant (Python `datetime` / `date`; the pipeline only ever uses the
    calendar-date part) is a `Date` record of year / month / day integers.
  * A DataFrame row is an association list from column name to `CellValue`
    (first binding wins); a DataFrame is a list of rows.  `CellValue.vNaN`
    models a missing value (`NaN` / `NaT`); a column that is absent from the
    association list also reads as missing, matching how `notnull` and
    `groupby` treat it.
  * Column assignment (`df[c] = ...`) is `setCol`: it replaces the value in
    place when the column exists and appends the column otherwise, exactly
    the position behaviour of pandas.
  * The Python pipeline mutates the caller's DataFrame in place
    (`dropna(..., inplace=True)` and direct column assignments), so every
    stateful stage below is a function from the shared table state to
    (new table state, rows yielded so far); the top-level `cohort` returns
    (result table, final state of the caller's DataFrame object).
  * `calculate_diff_between_dates` returns `Option Int`: `none` models the
    `UnboundLocalError` the Python function raises when no granularity
    branch assigns `diff`.
  * Aggregation values are rationals (`Rat`); pandas floats on the inputs
    exercised here are exact.
-/

namespace PandasBusiness

/-- A calendar date (the date part of a Python `datetime`). -/
structure Date where
  year : Int
  month : Int
  day : Int
deriving DecidableEq, Repr

/-- A dynamically typed pandas cell.  `vNaN` is a missing value (NaN/NaT). -/
inductive CellValue where
  | vDate : Date → CellValue
  | vStr : String → CellValue
  | vInt : Int → CellValue
  | vRat : Rat → CellValue
  | vNaN : CellValue
deriving DecidableEq, Repr

/-- A DataFrame row: association list column-name → cell (first binding wins). -/
abbrev Row := List (String × CellValue)

/-- Read a column of a row (`none` = column absent). -/
def getCol : Row → String → Option CellValue
  | [], _ => none
  | p :: ps, c => if p.1 = c then some p.2 else getCol ps c

/-- Column assignment `row[c] = v`: replace in place, or append a new column. -/
def setCol : Row → String → CellValue → Row
  | [], c, v => [(c, v)]
  | p :: ps, c, v => if p.1 = c then (c, v) :: ps else p :: setCol ps c v

/-- A read is missing when the column is absent or holds NaN. -/
def isNA : Option CellValue → Bool
  | none => true
  | some .vNaN => true
  | some _ => false

/-- The pandas `notnull` test on one column of one row. -/
def notna (r : Row) (c : String) : Bool := !(isNA (getCol r c))

/-- Days from 1970-01-01 (civil-calendar day count; embeds Python date
subtraction, whose `.days` is the exact signed day difference). -/
def toDays (d : Date) : Int :=
  let y : Int := if d.month ≤ 2 then d.year - 1 else d.year
  let era : Int := Int.fdiv y 400
  let yoe : Int := y - era * 400
  let mp : Int := (d.month + 9) % 12
  let doy : Int := (153 * mp + 2) / 5 + d.day - 1
  let doe : Int := yoe * 365 + yoe / 4 - yoe / 100 + doy
  era * 146097 + doe - 719468

/-- Monday-based weekday (Monday = 0), for `strftime("%W")`. -/
def weekdayMon (d : Date) : Int := (toDays d + 3) % 7

/-- One-based day of the year, for `strftime("%W")`. -/
def dayOfYear (d : Date) : Int := toDays d - toDays ⟨d.year, 1, 1⟩ + 1

/-- Week-of-year number as produced by `strftime("%W")` (Monday-based;
days before the first Monday of the year fall in week 0). -/
def weekOfYearW (d : Date) : Int := (dayOfYear d + 6 - weekdayMon d) / 7

/-- Zero-padded two-digit rendering used by `strftime("%m")` / `%W`. -/
def twoDigit (n : Int) : String :=
  if 0 ≤ n && n < 10 then "0" ++ toString n else toString n

/-- The label `str(year) + "-" + strftime("%m")` built by `create_year_month`. -/
def yearMonthLabel (d : Date) : String :=
  toString d.year ++ "-" ++ twoDigit d.month

/-- The label `str(year) + "-" + strftime("%W")` built by `create_year_week`. -/
def yearWeekLabel (d : Date) : String :=
  toString d.year ++ "-" ++ twoDigit (weekOfYearW d)

/-- Row-wise action of `create_year_month`: rows whose date column is null
fall outside the mask and get a missing value in the new column. -/
def create_year_month_row (date_col new_col : String) (r : Row) : Row :=
  match getCol r date_col with
  | some (.vDate d) => setCol r new_col (.vStr (yearMonthLabel d))
  | _ => setCol r new_col .vNaN

/-- Embeds `create_year_month` (a masked column assignment, hence row-wise). -/
def create_year_month (df : List Row) (date_col new_col : String) : List Row :=
  df.map (create_year_month_row date_col new_col)

/-- Row-wise action of `create_year_week`. -/
def create_year_week_row (date_col new_col : String) (r : Row) : Row :=
  match getCol r date_col with
  | some (.vDate d) => setCol r new_col (.vStr (yearWeekLabel d))
  | _ => setCol r new_col .vNaN

/-- Embeds `create_year_week`. -/
def create_year_week (df : List Row) (date_col new_col : String) : List Row :=
  df.map (create_year_week_row date_col new_col)

/-- Row-wise action of `create_date` (`df[new_col] = df[date_col].dt.date`;
our dates carry no time component, so the date part is the value itself). -/
def create_date_row (date_col new_col : String) (r : Row) : Row :=
  match getCol r date_col with
  | some (.vDate d) => setCol r new_col (.vDate d)
  | _ => setCol r new_col .vNaN

/-- Embeds `create_date`. -/
def create_date (df : List Row) (date_col new_col : String) : List Row :=
  df.map (create_date_row date_col new_col)

/-- Embeds `calculate_diff_between_dates`.  Python computes
`int((end - start).days / 7)` for `"weekly"`: float division truncated
toward zero, i.e. `Int.tdiv`.  For a granularity outside the three branches
the Python local `diff` is never assigned and `return diff` raises
`UnboundLocalError`; that failure is `none`. -/
def calculate_diff_between_dates (granularity : String) (end_date start_date : Date) :
    Option Int :=
  if granularity = "daily" then some (toDays end_date - toDays start_date)
  else if granularity = "weekly" then some (Int.tdiv (toDays end_date - toDays start_date) 7)
  else if granularity = "monthly" then
    some ((end_date.year - start_date.year) * 12 + end_date.month - start_date.month)
  else none

/-- The value `df.apply(lambda x: calculate_diff_between_dates(...), axis=1)`
stores per row.  In the pipeline both event cells are non-null dates (the
orchestrator drops null rows first) and the granularity is one of the three
known ones; on the remaining, unreachable patterns the Python code would
raise, and we return a missing value. -/
def elapsedCell (granularity transaction_event_col cohort_event_col : String) (r : Row) :
    CellValue :=
  match getCol r transaction_event_col, getCol r cohort_event_col with
  | some (.vDate e), some (.vDate s) =>
    match calculate_diff_between_dates granularity e s with
    | some n => .vInt n
    | none => .vNaN
  | _, _ => .vNaN

/-- Row-wise action of `add_cohort_granularity_cols`: the elapsed-distance
`cohort_column` first, then the `use_months` overwrite, then `cohort_row`
from the row granularity — the exact statement order of the source. -/
def add_cohort_granularity_cols_row (cohort_event_col transaction_event_col
    cohort_row_granularity cohort_column_granularity : String)
    (use_months create_cohort_cols : Bool) (r : Row) : Row :=
  let r1 := if create_cohort_cols then
      setCol r "cohort_column"
        (elapsedCell cohort_column_granularity transaction_event_col cohort_event_col r)
    else r
  let r2 := if use_months then
      create_year_month_row transaction_event_col "cohort_column" r1
    else r1
  if cohort_row_granularity = "monthly" then
    create_year_month_row cohort_event_col "cohort_row" r2
  else if cohort_row_granularity = "weekly" then
    create_year_week_row cohort_event_col "cohort_row" r2
  else if cohort_row_granularity = "daily" then
    create_date_row cohort_event_col "cohort_row" r2
  else r2

/-- Embeds `add_cohort_granularity_cols` (every step is a column assignment,
hence a map over rows). -/
def add_cohort_granularity_cols (df : List Row) (cohort_event_col transaction_event_col
    cohort_row_granularity cohort_column_granularity : String)
    (use_months create_cohort_cols : Bool) : List Row :=
  df.map (add_cohort_granularity_cols_row cohort_event_col transaction_event_col
    cohort_row_granularity cohort_column_granularity use_months create_cohort_cols)

/-- The six-field grouping key of `cohort_base`. -/
structure GroupKey where
  kRow : CellValue
  kCol : CellValue
  kEvent : CellValue
  kRowG : CellValue
  kColG : CellValue
  kMetric : CellValue
deriving DecidableEq, Repr

/-- A grouping-key component: present and non-missing, else the row is
dropped by `groupby` (pandas default `dropna=True`). -/
def keyVal (r : Row) (c : String) : Option CellValue :=
  match getCol r c with
  | some .vNaN => none
  | some v => some v
  | none => none

/-- The grouping key of one row under `cohort_base`'s six grouping columns;
`none` when any component is missing (such a row is dropped by `groupby`). -/
def rowKey (cohort_row cohort_column : String) (r : Row) : Option GroupKey := do
  let a ← keyVal r cohort_row
  let b ← keyVal r cohort_column
  let c ← keyVal r "cohort_event"
  let d ← keyVal r "row_granularity"
  let e ← keyVal r "col_granularity"
  let f ← keyVal r "metric_name"
  pure ⟨a, b, c, d, e, f⟩

/-- Numeric view of a cell (pandas aggregates skip missing values). -/
def toRatValue : CellValue → Option Rat
  | .vInt n => some (n : Rat)
  | .vRat q => some q
  | _ => none

/-- The numeric values of one column over a table, missing values skipped. -/
def colVals (df : List Row) (c : String) : List Rat :=
  df.filterMap (fun r => (getCol r c).bind toRatValue)

/-- Minimum of a list of rationals (`none` on the empty list). -/
def listMin : List Rat → Option Rat
  | [] => none
  | a :: as => match listMin as with
    | none => some a
    | some b => some (min a b)

/-- Maximum of a list of rationals (`none` on the empty list). -/
def listMax : List Rat → Option Rat
  | [] => none
  | a :: as => match listMax as with
    | none => some a
    | some b => some (max a b)

/-- The pandas reduction named by `metric_operation` (`none` models the NaN
a mean/min/max of an empty group would give). -/
def aggOp (op : String) (vs : List Rat) : Option Rat :=
  if op = "sum" then some vs.sum
  else if op = "mean" then
    if vs.length = 0 then none else some (vs.sum / (vs.length : Rat))
  else if op = "count" then some ((vs.length : Rat))
  else if op = "min" then listMin vs
  else if op = "max" then listMax vs
  else none

/-- One output row of `cohort_base` after `reset_index()` and the rename to
`metric_value`: the six key columns in grouping order, then the value. -/
def mkOutRow (cohort_row cohort_column : String) (k : GroupKey) (v : Option Rat) : Row :=
  [(cohort_row, k.kRow), (cohort_column, k.kCol), ("cohort_event", k.kEvent),
   ("row_granularity", k.kRowG), ("col_granularity", k.kColG),
   ("metric_name", k.kMetric),
   ("metric_value", match v with | some q => .vRat q | none => .vNaN)]

/-- Embeds `cohort_base`: group by the six-field key and reduce the metric
column.  (Pandas emits the groups sorted by key; we keep them in
last-occurrence order via `dedup` — on every claim below the two orders
coincide or the order is irrelevant.) -/
def cohort_base (df : List Row) (cohort_column cohort_row
    metric_target_col metric_operation : String) : List Row :=
  ((df.filterMap (rowKey cohort_row cohort_column)).dedup).map
    (fun k => mkOutRow cohort_row cohort_column k
      (aggOp metric_operation
        (colVals (df.filter (fun r => rowKey cohort_row cohort_column r = some k))
          metric_target_col)))

/-- The inner loop of `cohort_metrics` over one metric's operation list:
each pass first mutates the shared table's `metric_name` column, then
aggregates.  Returns (final table state, concatenation of yielded frames). -/
def cohort_metrics_ops (cohort_row cohort_column metric_target_col : String) :
    List Row → List String → List Row × List Row
  | df, [] => (df, [])
  | df, op :: ops =>
    let st := df.map (fun r =>
      setCol r "metric_name" (.vStr (metric_target_col ++ "_" ++ op)))
    let rest := cohort_metrics_ops cohort_row cohort_column metric_target_col st ops
    (rest.1, cohort_base st cohort_column cohort_row metric_target_col op ++ rest.2)

/-- Embeds `cohort_metrics` (metrics dict in insertion order).  Returns
(final table state, concatenation of yielded frames). -/
def cohort_metrics (df : List Row) (cohort_row cohort_column : String) :
    List (String × List String) → List Row × List Row
  | [] => (df, [])
  | (mcol, ops) :: ms =>
    let r1 := cohort_metrics_ops cohort_row cohort_column mcol df ops
    let r2 := cohort_metrics r1.1 cohort_row cohort_column ms
    (r2.1, r1.2 ++ r2.2)

/-- One iteration of the granularity-pair loop of `cohort_granularity_metrics`:
the in-place `dropna` on the shared table, the empty-table `continue`, the
column assignments, the tagging, and the metric passes. -/
def cohort_granularity_one (transaction_event_col : String)
    (metrics : List (String × List String)) (use_months : Bool)
    (df : List Row) (cohort_event_col row_granularity col_granularity : String) :
    List Row × List Row :=
  let df1 := df.filter (fun r =>
    notna r cohort_event_col && notna r transaction_event_col)
  if df1.length = 0 then (df1, [])
  else
    let df2 := add_cohort_granularity_cols df1 cohort_event_col transaction_event_col
      row_granularity col_granularity use_months true
    let df3 := df2.map (fun r =>
      setCol (setCol (setCol r "cohort_event" (.vStr cohort_event_col))
        "row_granularity" (.vStr row_granularity))
        "col_granularity" (.vStr col_granularity))
    cohort_metrics df3 "cohort_row" "cohort_column" metrics

/-- The granularity-pair loop for one cohort event column, threading the
shared (mutated) table through the iterations. -/
def cohort_granularity_gr (transaction_event_col : String)
    (metrics : List (String × List String)) (use_months : Bool)
    (cohort_event_col : String) :
    List Row → List (String × String) → List Row × List Row
  | df, [] => (df, [])
  | df, (rg, cg) :: gs =>
    let one := cohort_granularity_one transaction_event_col metrics use_months
      df cohort_event_col rg cg
    let rest := cohort_granularity_gr transaction_event_col metrics use_months
      cohort_event_col one.1 gs
    (rest.1, one.2 ++ rest.2)

/-- Embeds `cohort_granularity_metrics`: the loop over cohort event columns,
still on the one shared table.  Returns (final table state, concatenation of
all yielded frames in loop order). -/
def cohort_granularity_metrics (df : List Row) :
    List String → (transaction_event_col : String) →
    List (String × List String) → List (String × String) → Bool →
    List Row × List Row
  | [], _, _, _, _ => (df, [])
  | cec :: cecs, tec, metrics, grans, um =>
    let r1 := cohort_granularity_gr tec metrics um cec df grans
    let r2 := cohort_granularity_metrics r1.1 cecs tec metrics grans um
    (r2.1, r1.2 ++ r2.2)

/-- Embeds the public `cohort` entry point.  First component: the returned
result table (the concatenation of all aggregate frames, starting from the
empty `pd.DataFrame()`).  Second component: the state of the caller's
DataFrame object after the call — the pipeline mutates it in place. -/
def cohort (df : List Row) (cohort_event_cols : List String)
    (transaction_event_col : String) (metrics : List (String × List String))
    (row_col_granularities : List (String × String)) (use_months : Bool) :
    List Row × List Row :=
  let r := cohort_granularity_metrics df cohort_event_cols transaction_event_col
    metrics row_col_granularities use_months
  (r.2, r.1)

/-- The synthetic working-column names the pipeline writes onto the shared
table. -/
def isSynName (c : String) : Bool :=
  c = "cohort_column" || c = "cohort_row" || c = "cohort_event" ||
  c = "row_granularity" || c = "col_granularity" || c = "metric_name"

/-- A row with the synthetic working columns removed: the caller-owned part. -/
def stripSynthetic (r : Row) : Row := r.filter (fun p => !(isSynName p.1))

/-- The six-record reference table of `tests/test_business.py`. -/
def df_cohort_input : List Row :=
  [[("month_subscribed", .vDate ⟨2020, 1, 1⟩), ("unsubscribed_at", .vDate ⟨2020, 3, 1⟩),
    ("client_life", .vInt 2)],
   [("month_subscribed", .vDate ⟨2020, 1, 1⟩), ("unsubscribed_at", .vDate ⟨2020, 3, 1⟩),
    ("client_life", .vInt 2)],
   [("month_subscribed", .vDate ⟨2020, 1, 1⟩), ("unsubscribed_at", .vDate ⟨2020, 4, 1⟩),
    ("client_life", .vInt 3)],
   [("month_subscribed", .vDate ⟨2020, 2, 1⟩), ("unsubscribed_at", .vDate ⟨2020, 3, 1⟩),
    ("client_life", .vInt 1)],
   [("month_subscribed", .vDate ⟨2020, 2, 1⟩), ("unsubscribed_at", .vDate ⟨2020, 3, 1⟩),
    ("client_life", .vInt 1)],
   [("month_subscribed", .vDate ⟨2020, 2, 1⟩), ("unsubscribed_at", .vDate ⟨2020, 4, 1⟩),
    ("client_life", .vInt 2)]]




/-! Basic lemmas about column reads, writes, and the caller-owned part of a
row. -/

theorem getCol_setCol_self (r : Row) (c : String) (v : CellValue) :
    getCol (setCol r c v) c = some v := by
  induction r with
  | nil => simp [setCol, getCol]
  | cons p ps ih =>
    by_cases h : p.1 = c
    · simp [setCol, h, getCol]
    · simp [setCol, h, getCol, ih]

theorem getCol_setCol_ne (r : Row) (c cq : String) (v : CellValue) (h : cq ≠ c) :
    getCol (setCol r c v) cq = getCol r cq := by
  induction r with
  | nil => simp [setCol, getCol, Ne.symm h]
  | cons p ps ih =>
    by_cases hp : p.1 = c
    · simp [setCol, hp, getCol, Ne.symm h, h]
    · by_cases hq : p.1 = cq
      · simp [setCol, hp, getCol, hq, h]
      · simp [setCol, hp, getCol, hq, ih]

theorem strip_setCol_syn (r : Row) (c : String) (v : CellValue) (h : isSynName c = true) :
    stripSynthetic (setCol r c v) = stripSynthetic r := by
  induction r with
  | nil => simp [setCol, stripSynthetic, h]
  | cons p ps ih =>
    by_cases hp : p.1 = c
    · simp [setCol, hp, stripSynthetic, List.filter_cons, hp ▸ h, h]
    · simp only [setCol, hp, if_false, ite_false, stripSynthetic, List.filter_cons]
      by_cases hs : isSynName p.1
      · simpa [hs] using ih
      · simpa [hs] using congrArg (p :: ·) ih

theorem getCol_strip (r : Row) (c : String) (h : isSynName c = false) :
    getCol (stripSynthetic r) c = getCol r c := by
  induction r with
  | nil => simp [stripSynthetic, getCol]
  | cons p ps ih =>
    by_cases hs : isSynName p.1
    · have hpc : p.1 ≠ c := fun e => by rw [e, h] at hs; exact Bool.noConfusion hs
      simp [stripSynthetic, List.filter_cons, hs, getCol, hpc] at ih ⊢
      exact ih
    · by_cases hpc : p.1 = c
      · simp [stripSynthetic, List.filter_cons, hs, getCol, hpc, h]
      · simp [stripSynthetic, List.filter_cons, hs, getCol, hpc] at ih ⊢
        exact ih

theorem notna_strip (r : Row) (c : String) (h : isSynName c = false) :
    notna (stripSynthetic r) c = notna r c := by
  simp [notna, getCol_strip r c h]

theorem map_strip_filter (l : List Row) (p q : Row → Bool)
    (hpq : ∀ r, p r = q (stripSynthetic r)) :
    (l.filter p).map stripSynthetic = (l.map stripSynthetic).filter q := by
  induction l with
  | nil => rfl
  | cons a l ih =>
    by_cases ha : p a
    · have : q (stripSynthetic a) = true := (hpq a) ▸ ha
      simp [List.filter_cons, ha, this, ih]
    · have : q (stripSynthetic a) = false := (hpq a) ▸ (Bool.of_not_eq_true ha)
      simp [List.filter_cons, ha, this, ih]

/-! The pipeline's per-row transforms only write synthetic working columns,
so they leave the caller-owned part of every row unchanged. -/

theorem strip_create_year_month_row (dc nc : String) (r : Row) (h : isSynName nc = true) :
    stripSynthetic (create_year_month_row dc nc r) = stripSynthetic r := by
  unfold create_year_month_row
  split <;> exact strip_setCol_syn _ _ _ h

theorem strip_create_year_week_row (dc nc : String) (r : Row) (h : isSynName nc = true) :
    stripSynthetic (create_year_week_row dc nc r) = stripSynthetic r := by
  unfold create_year_week_row
  split <;> exact strip_setCol_syn _ _ _ h

theorem strip_create_date_row (dc nc : String) (r : Row) (h : isSynName nc = true) :
    stripSynthetic (create_date_row dc nc r) = stripSynthetic r := by
  unfold create_date_row
  split <;> exact strip_setCol_syn _ _ _ h

theorem strip_add_row (cec tec rg cg : String) (um ccc : Bool) (r : Row) :
    stripSynthetic (add_cohort_granularity_cols_row cec tec rg cg um ccc r)
      = stripSynthetic r := by
  have hcol : isSynName "cohort_column" = true := by decide
  have hrow : isSynName "cohort_row" = true := by decide
  unfold add_cohort_granularity_cols_row
  cases ccc <;> cases um <;>
    by_cases h1 : rg = "monthly" <;>
    by_cases h2 : rg = "weekly" <;>
    by_cases h3 : rg = "daily" <;>
    simp [h1, h2, h3, strip_create_year_month_row _ _ _ hcol,
      strip_create_year_month_row _ _ _ hrow, strip_create_year_week_row _ _ _ hrow,
      strip_create_date_row _ _ _ hrow, strip_setCol_syn _ _ _ hcol]

theorem strip_tag_row (cec rg cg : String) (r : Row) :
    stripSynthetic (setCol (setCol (setCol r "cohort_event" (.vStr cec))
      "row_granularity" (.vStr rg)) "col_granularity" (.vStr cg))
      = stripSynthetic r := by
  rw [strip_setCol_syn _ _ _ (by decide), strip_setCol_syn _ _ _ (by decide),
    strip_setCol_syn _ _ _ (by decide)]


/-! State of the shared (in-place mutated) table through the pipeline. -/

theorem map_strip_map_of_strip_eq (l : List Row) (T : Row → Row)
    (h : ∀ r, stripSynthetic (T r) = stripSynthetic r) :
    (l.map T).map stripSynthetic = l.map stripSynthetic := by
  rw [List.map_map]
  exact List.map_congr_left (fun a _ => h a)

theorem cohort_metrics_ops_state (cr cc mcol : String) (df : List Row) (ops : List String) :
    ((cohort_metrics_ops cr cc mcol df ops).1).map stripSynthetic
      = df.map stripSynthetic := by
  induction ops generalizing df with
  | nil => rfl
  | cons op ops ih =>
    simp only [cohort_metrics_ops]
    rw [ih]
    exact map_strip_map_of_strip_eq _ _ (fun r => strip_setCol_syn _ _ _ (by decide))

theorem cohort_metrics_state (cr cc : String) (df : List Row)
    (ms : List (String × List String)) :
    ((cohort_metrics df cr cc ms).1).map stripSynthetic = df.map stripSynthetic := by
  induction ms generalizing df with
  | nil => rfl
  | cons m ms ih =>
    cases m with
    | mk mcol ops =>
      simp only [cohort_metrics]
      rw [ih, cohort_metrics_ops_state]

theorem cohort_granularity_one_state (tec : String) (metrics : List (String × List String))
    (um : Bool) (st : List Row) (cec rg cg : String) :
    ((cohort_granularity_one tec metrics um st cec rg cg).1).map stripSynthetic
      = (st.filter (fun r => notna r cec && notna r tec)).map stripSynthetic := by
  simp only [cohort_granularity_one]
  split
  · rfl
  · rw [cohort_metrics_state]
    simp only [add_cohort_granularity_cols]
    rw [map_strip_map_of_strip_eq _ _ (fun r => strip_tag_row _ _ _ _)]
    exact map_strip_map_of_strip_eq _ _ (fun r => strip_add_row _ _ _ _ _ _ _)

theorem all_notna_strip (cs : List String) (hsyn : ∀ c ∈ cs, isSynName c = false)
    (r : Row) :
    cs.all (fun x => notna (stripSynthetic r) x) = cs.all (fun x => notna r x) := by
  induction cs with
  | nil => rfl
  | cons c cs ih =>
    simp only [List.all_cons]
    rw [notna_strip r c (hsyn c (by simp)), ih (fun x hx => hsyn x (by simp [hx]))]

theorem filter_notna_strip (cec tec : String) (hc : isSynName cec = false)
    (ht : isSynName tec = false) (l : List Row) :
    (l.filter (fun r => notna r cec && notna r tec)).map stripSynthetic
      = (l.map stripSynthetic).filter (fun r => notna r cec && notna r tec) :=
  map_strip_filter l _ _ (fun r => by rw [notna_strip r cec hc, notna_strip r tec ht])

theorem filter_all_notna_strip (cs : List String) (tec : String)
    (hsyn : ∀ c ∈ cs, isSynName c = false) (ht : isSynName tec = false) (l : List Row) :
    (l.filter (fun r => cs.all (fun c => notna r c) && notna r tec)).map stripSynthetic
      = (l.map stripSynthetic).filter (fun r => cs.all (fun c => notna r c) && notna r tec) :=
  map_strip_filter l _ _ (fun r => by
    rw [notna_strip r tec ht, all_notna_strip cs hsyn r])

theorem cohort_granularity_gr_state (tec : String) (metrics : List (String × List String))
    (um : Bool) (cec : String) (hc : isSynName cec = false) (ht : isSynName tec = false)
    (st : List Row) (gs : List (String × String)) (hgs : gs ≠ []) :
    ((cohort_granularity_gr tec metrics um cec st gs).1).map stripSynthetic
      = (st.filter (fun r => notna r cec && notna r tec)).map stripSynthetic := by
  induction gs generalizing st with
  | nil => exact absurd rfl hgs
  | cons g gs ih =>
    cases g with
    | mk rg cg =>
      simp only [cohort_granularity_gr]
      cases gs with
      | nil =>
        simpa [cohort_granularity_gr] using
          cohort_granularity_one_state tec metrics um st cec rg cg
      | cons g2 gs2 =>
        rw [ih _ (by simp)]
        rw [filter_notna_strip cec tec hc ht, cohort_granularity_one_state,
          ← filter_notna_strip cec tec hc ht, List.filter_filter]
        congr 1
        exact List.filter_congr
          (fun r _ => by cases notna r cec <;> cases notna r tec <;> rfl)

theorem cohort_granularity_metrics_state (tec : String)
    (metrics : List (String × List String)) (grans : List (String × String)) (um : Bool)
    (hg : grans ≠ []) (ht : isSynName tec = false) :
    ∀ (cecs : List String), cecs ≠ [] → (∀ c ∈ cecs, isSynName c = false) →
    ∀ (df : List Row),
    ((cohort_granularity_metrics df cecs tec metrics grans um).1).map stripSynthetic
      = (df.filter (fun r =>
          cecs.all (fun c => notna r c) && notna r tec)).map stripSynthetic := by
  intro cecs
  induction cecs with
  | nil => exact fun h => absurd rfl h
  | cons c cs ih =>
    intro _ hsyn df
    have hcsyn : isSynName c = false := hsyn c (by simp)
    have hcssyn : ∀ x ∈ cs, isSynName x = false := fun x hx => hsyn x (by simp [hx])
    simp only [cohort_granularity_metrics]
    cases cs with
    | nil =>
      simp only [cohort_granularity_metrics]
      rw [cohort_granularity_gr_state tec metrics um c hcsyn ht df grans hg]
      congr 1
      exact List.filter_congr (fun r _ => by
        rw [List.all_cons]
        cases notna r c <;> cases notna r tec <;> rfl)
    | cons c2 cs2 =>
      rw [ih (by simp) hcssyn]
      rw [filter_all_notna_strip _ tec hcssyn ht,
        cohort_granularity_gr_state tec metrics um c hcsyn ht df grans hg,
        ← filter_all_notna_strip _ tec hcssyn ht, List.filter_filter]
      congr 1
      exact List.filter_congr (fun r _ => by
        nth_rewrite 2 [List.all_cons]
        cases notna r c <;> cases notna r tec <;>
          cases (c2 :: cs2).all (fun x => notna r x) <;> rfl)


theorem getCol_create_year_month_row_ne (dc nc cq : String) (r : Row) (h : cq ≠ nc) :
    getCol (create_year_month_row dc nc r) cq = getCol r cq := by
  unfold create_year_month_row
  split <;> exact getCol_setCol_ne _ _ _ _ h

theorem getCol_create_year_week_row_ne (dc nc cq : String) (r : Row) (h : cq ≠ nc) :
    getCol (create_year_week_row dc nc r) cq = getCol r cq := by
  unfold create_year_week_row
  split <;> exact getCol_setCol_ne _ _ _ _ h

theorem getCol_create_date_row_ne (dc nc cq : String) (r : Row) (h : cq ≠ nc) :
    getCol (create_date_row dc nc r) cq = getCol r cq := by
  unfold create_date_row
  split <;> exact getCol_setCol_ne _ _ _ _ h


/-- C1: for the six-record reference input, `cohort` with
`cohort_event_cols=["month_subscribed"]`, `transaction_event_col="unsubscribed_at"`,
`metrics={"client_life": ["mean"]}`, `row_col_granularities=[("monthly","monthly")]`,
`use_months=false` returns exactly four aggregate rows, each with
`metric_name="client_life_mean"`: ("2020-01", 2, value 2), ("2020-01", 3, value 3),
("2020-02", 1, value 1) and ("2020-02", 2, value 2). -/
theorem cohort_reference_scenario :
    (cohort df_cohort_input ["month_subscribed"] "unsubscribed_at"
      [("client_life", ["mean"])] [("monthly", "monthly")] false).1 =
    [[("cohort_row", .vStr "2020-01"), ("cohort_column", .vInt 2),
      ("cohort_event", .vStr "month_subscribed"), ("row_granularity", .vStr "monthly"),
      ("col_granularity", .vStr "monthly"), ("metric_name", .vStr "client_life_mean"),
      ("metric_value", .vRat 2)],
     [("cohort_row", .vStr "2020-01"), ("cohort_column", .vInt 3),
      ("cohort_event", .vStr "month_subscribed"), ("row_granularity", .vStr "monthly"),
      ("col_granularity", .vStr "monthly"), ("metric_name", .vStr "client_life_mean"),
      ("metric_value", .vRat 3)],
     [("cohort_row", .vStr "2020-02"), ("cohort_column", .vInt 1),
      ("cohort_event", .vStr "month_subscribed"), ("row_granularity", .vStr "monthly"),
      ("col_granularity", .vStr "monthly"), ("metric_name", .vStr "client_life_mean"),
      ("metric_value", .vRat 1)],
     [("cohort_row", .vStr "2020-02"), ("cohort_column", .vInt 2),
      ("cohort_event", .vStr "month_subscribed"), ("row_granularity", .vStr "monthly"),
      ("col_granularity", .vStr "monthly"), ("metric_name", .vStr "client_life_mean"),
      ("metric_value", .vRat 2)]] := by
  with_unfolding_all decide

/-- C2: for every pair of instants, the monthly elapsed difference is exactly
`(B.year - A.year) * 12 + B.month - A.month`, independent of the day-of-month
of either instant; in particular a transaction on day 1 and one on day 28 of
the month following the cohort event both yield elapsed 1. -/
theorem monthly_diff_formula :
    (∀ A B : Date, calculate_diff_between_dates "monthly" B A
      = some ((B.year - A.year) * 12 + B.month - A.month))
    ∧ calculate_diff_between_dates "monthly" ⟨2020, 2, 1⟩ ⟨2020, 1, 15⟩ = some 1
    ∧ calculate_diff_between_dates "monthly" ⟨2020, 2, 28⟩ ⟨2020, 1, 15⟩ = some 1 := by
  refine ⟨fun A B => rfl, by decide, by decide⟩

/-- C5: for every pair of instants, including when the end date precedes the
start date, the weekly elapsed difference is the daily (whole-day) difference
integer-divided by 7 with truncation toward zero (`Int.tdiv`); the concrete
conjuncts show the negative case `-8` days ↦ `-1` weeks (floor would give `-2`). -/
theorem weekly_diff_is_daily_tdiv_seven :
    (∀ A B : Date, calculate_diff_between_dates "weekly" B A
      = (calculate_diff_between_dates "daily" B A).map (fun n => Int.tdiv n 7))
    ∧ calculate_diff_between_dates "daily" ⟨2020, 1, 1⟩ ⟨2020, 1, 9⟩ = some (-8)
    ∧ calculate_diff_between_dates "weekly" ⟨2020, 1, 1⟩ ⟨2020, 1, 9⟩ = some (-1) := by
  refine ⟨fun A B => rfl, by decide, by decide⟩

/-- C8: evaluating `calculate_diff_between_dates` at a granularity outside
{"daily","weekly","monthly"} produces no value: no branch of the source
assigns `diff`, and the Python `return diff` raises `UnboundLocalError` —
an unbound-local failure, not an InvalidArgument-style validation error. -/
theorem unknown_granularity_yields_no_value :
    calculate_diff_between_dates "yearly" ⟨2020, 1, 1⟩ ⟨2019, 1, 1⟩ = none := by decide

/-- C4 counterexample: after the reference-scenario call the caller's table
does not hold the columns it held before: the pipeline has appended the
synthetic working columns (and would also have dropped null rows) in place. -/
theorem cohort_mutates_caller_table :
    (cohort df_cohort_input ["month_subscribed"] "unsubscribed_at"
      [("client_life", ["mean"])] [("monthly", "monthly")] false).2
    ≠ df_cohort_input := by
  with_unfolding_all decide


/-- C3: with `use_months=true`, for every row whose transaction-event cell is
a (non-null) date — i.e. every row of the surviving working table — and for
every requested granularity pair, the final `cohort_column` value is the
transaction instant's month label `"{year}-{2-digit month}"`: the
elapsed-distance integer is written first and then overwritten. -/
theorem use_months_overwrites_cohort_column :
    ∀ (r : Row) (cec tec rg cg : String) (d : Date),
    tec ≠ "cohort_column" →
    getCol r tec = some (.vDate d) →
    getCol (add_cohort_granularity_cols_row cec tec rg cg true true r) "cohort_column"
      = some (.vStr (yearMonthLabel d)) := by
  intro r cec tec rg cg d htec hget
  have hr1 : getCol (setCol r "cohort_column" (elapsedCell cg tec cec r)) tec
      = some (CellValue.vDate d) := by
    rw [getCol_setCol_ne _ _ _ _ htec]; exact hget
  simp only [add_cohort_granularity_cols_row, if_true, eq_self_iff_true,
    create_year_month_row, hr1]
  split
  · split <;> (rw [getCol_setCol_ne _ _ _ _ (by decide)]; exact getCol_setCol_self _ _ _)
  · split
    · rw [getCol_create_year_week_row_ne _ _ _ _ (by decide)]
      exact getCol_setCol_self _ _ _
    · split
      · rw [getCol_create_date_row_ne _ _ _ _ (by decide)]
        exact getCol_setCol_self _ _ _
      · exact getCol_setCol_self _ _ _

/-- Witness for C3 at a concrete row and granularity pair ("weekly","daily"):
the column bucket is the transaction month label even though neither
granularity is monthly. -/
theorem use_months_overwrites_cohort_column_witness :
    getCol (add_cohort_granularity_cols_row "c" "t" "weekly" "daily" true true
      [("c", CellValue.vDate ⟨2020, 1, 10⟩), ("t", CellValue.vDate ⟨2021, 7, 28⟩)])
      "cohort_column" = some (CellValue.vStr "2021-07") :=
  use_months_overwrites_cohort_column _ "c" "t" "weekly" "daily" ⟨2021, 7, 28⟩
    (by decide) (by decide)

/-- C4 (amended): `cohort` does mutate the caller's table in place; with at
least one cohort event column and one granularity pair, and user column
names distinct from the synthetic working names, the caller's table after
the call consists — up to the appended synthetic working columns — of
exactly the original rows that are non-null in every cohort event column
and in the transaction event column. -/
theorem cohort_final_state_characterization :
    ∀ (df : List Row) (cecs : List String) (tec : String)
      (metrics : List (String × List String)) (grans : List (String × String)) (um : Bool),
    cecs ≠ [] → grans ≠ [] → (∀ c ∈ cecs, isSynName c = false) →
    isSynName tec = false →
    ((cohort df cecs tec metrics grans um).2).map stripSynthetic
      = (df.filter (fun r => cecs.all (fun c => notna r c) && notna r tec)).map
          stripSynthetic := by
  intro df cecs tec metrics grans um hcecs hg hsyn ht
  show ((cohort_granularity_metrics df cecs tec metrics grans um).1).map stripSynthetic = _
  exact cohort_granularity_metrics_state tec metrics grans um hg ht cecs hcecs hsyn df

/-- Witness for the amended C4 on a one-row table whose cohort event cell is
null: the row is dropped from the caller's table by the call. -/
theorem cohort_final_state_characterization_witness :
    ((cohort [[("a", CellValue.vNaN), ("b", CellValue.vDate ⟨2020, 1, 1⟩)]]
        ["a"] "b" [] [("monthly", "monthly")] false).2).map stripSynthetic
      = ([[("a", CellValue.vNaN), ("b", CellValue.vDate ⟨2020, 1, 1⟩)]].filter
          (fun r => ["a"].all (fun c => notna r c) && notna r "b")).map stripSynthetic :=
  cohort_final_state_characterization _ _ _ _ _ _ (by decide) (by decide) (by decide)
    (by decide)

/-- C7: for every combination, rows that are null in the combination's cohort
event column or transaction event column are dropped before bucketing and
never contribute to the combination's aggregate output (the output equals
the output on the pre-filtered table, with no error on the way), and if no
rows survive the filter the combination is skipped and yields zero rows. -/
theorem combination_drops_null_rows :
    ∀ (tec : String) (metrics : List (String × List String)) (um : Bool)
      (st : List Row) (cec rg cg : String),
    ((cohort_granularity_one tec metrics um st cec rg cg).2
      = (cohort_granularity_one tec metrics um
          (st.filter (fun r => notna r cec && notna r tec)) cec rg cg).2)
    ∧ (st.filter (fun r => notna r cec && notna r tec) = [] →
        (cohort_granularity_one tec metrics um st cec rg cg).2 = []) := by
  intro tec metrics um st cec rg cg
  have hid : (st.filter (fun r => notna r cec && notna r tec)).filter
      (fun r => notna r cec && notna r tec)
      = st.filter (fun r => notna r cec && notna r tec) :=
    List.filter_eq_self.mpr (fun a ha => (List.mem_filter.mp ha).2)
  constructor
  · simp only [cohort_granularity_one]
    rw [hid]
  · intro h
    simp only [cohort_granularity_one, h]
    rfl

/-- Witness for C7: a one-row table whose cohort event cell is null filters
to the empty table, and the combination contributes zero output rows. -/
theorem combination_drops_null_rows_witness :
    (cohort_granularity_one "t" [("m", ["sum"])] false
      [[("c", CellValue.vNaN), ("t", CellValue.vDate ⟨2020, 1, 1⟩), ("m", CellValue.vInt 4)]]
      "c" "monthly" "monthly").2 = [] :=
  (combination_drops_null_rows "t" [("m", ["sum"])] false
    [[("c", CellValue.vNaN), ("t", CellValue.vDate ⟨2020, 1, 1⟩), ("m", CellValue.vInt 4)]]
    "c" "monthly" "monthly").2 (by decide)

/-! Counting lemmas for the `groupby` partition property. -/

theorem filterMap_length_of_isSome {α β : Type} (f : α → Option β) (l : List α)
    (h : ∀ x ∈ l, (f x).isSome = true) : (l.filterMap f).length = l.length := by
  induction l with
  | nil => rfl
  | cons a l ih =>
    obtain ⟨b, hb⟩ := Option.isSome_iff_exists.mp (h a (by simp))
    rw [List.filterMap_cons, hb]
    simp [ih (fun x hx => h x (by simp [hx]))]

theorem filter_key_length_eq_count {α β : Type} [DecidableEq β] (f : α → Option β)
    (l : List α) (h : ∀ x ∈ l, (f x).isSome = true) (k : β) :
    (l.filter (fun x => f x = some k)).length = (l.filterMap f).count k := by
  induction l with
  | nil => rfl
  | cons a l ih =>
    obtain ⟨b, hb⟩ := Option.isSome_iff_exists.mp (h a (by simp))
    have ihl := ih (fun x hx => h x (by simp [hx]))
    rw [List.filterMap_cons, hb, List.filter_cons]
    by_cases hbk : b = k
    · subst hbk
      simp [hb, List.count_cons, ihl]
    · have hne : ¬(f a = some k) := by rw [hb]; simp [hbk]
      simp [hb, hne, List.count_cons, hbk, ihl]

/-- A small already-bucketed working table used to witness the partition
property of the aggregation step. -/
def workingTable : List Row :=
  [[("cohort_row", .vStr "2020-01"), ("cohort_column", .vInt 1),
    ("cohort_event", .vStr "e"), ("row_granularity", .vStr "monthly"),
    ("col_granularity", .vStr "monthly"), ("metric_name", .vStr "m_sum"),
    ("m", .vInt 5)],
   [("cohort_row", .vStr "2020-01"), ("cohort_column", .vInt 1),
    ("cohort_event", .vStr "e"), ("row_granularity", .vStr "monthly"),
    ("col_granularity", .vStr "monthly"), ("metric_name", .vStr "m_sum"),
    ("m", .vInt 7)],
   [("cohort_row", .vStr "2020-02"), ("cohort_column", .vInt 2),
    ("cohort_event", .vStr "e"), ("row_granularity", .vStr "monthly"),
    ("col_granularity", .vStr "monthly"), ("metric_name", .vStr "m_sum"),
    ("m", .vInt 9)]]

/-- C6: on a working table in which every row carries the six grouping
fields (as every table reaching the aggregation step does), the grouping of
`cohort_base` is a partition: it emits exactly one output row per distinct
key, the per-key group sizes sum to the input row count, and every input
row belongs to exactly one group. -/
theorem cohort_base_partitions_input :
    ∀ (df : List Row) (cr cc mcol op : String),
    (∀ r ∈ df, (rowKey cr cc r).isSome = true) →
    (cohort_base df cc cr mcol op).length
        = ((df.filterMap (rowKey cr cc)).dedup).length
    ∧ (((df.filterMap (rowKey cr cc)).dedup).map
        (fun k => (df.filter (fun r => rowKey cr cc r = some k)).length)).sum
        = df.length
    ∧ ∀ r ∈ df, ∃! k : GroupKey,
        k ∈ (df.filterMap (rowKey cr cc)).dedup ∧ rowKey cr cc r = some k := by
  intro df cr cc mcol op h
  refine ⟨by simp [cohort_base], ?_, ?_⟩
  · have h1 : ∀ k ∈ (df.filterMap (rowKey cr cc)).dedup,
        (df.filter (fun r => rowKey cr cc r = some k)).length
          = (df.filterMap (rowKey cr cc)).count k :=
      fun k _ => filter_key_length_eq_count (rowKey cr cc) df h k
    rw [List.map_congr_left h1, List.sum_map_count_dedup_eq_length,
      filterMap_length_of_isSome (rowKey cr cc) df h]
  · intro r hr
    obtain ⟨k, hk⟩ := Option.isSome_iff_exists.mp (h r hr)
    refine ⟨k, ⟨List.mem_dedup.mpr (List.mem_filterMap.mpr ⟨r, hr, hk⟩), hk⟩, ?_⟩
    intro y hy
    have h2 := hy.2
    rw [hk] at h2
    exact (Option.some.inj h2).symm

/-- Witness for C6: on the three-row working table with two distinct keys,
the group sizes sum to 3, the input row count. -/
theorem cohort_base_partitions_input_witness :
    (((workingTable.filterMap (rowKey "cohort_row" "cohort_column")).dedup).map
      (fun k => (workingTable.filter
        (fun r => rowKey "cohort_row" "cohort_column" r = some k)).length)).sum
      = workingTable.length :=
  (cohort_base_partitions_input workingTable "cohort_row" "cohort_column" "m" "sum"
    (by decide)).2.1

/-- C9: `cohort` returns an empty result table (zero rows) whenever the
cohort event column list, the granularity-pair list, or the metrics mapping
is empty. -/
theorem empty_spec_inputs_give_empty_result :
    (∀ (df : List Row) (tec : String) (metrics : List (String × List String))
       (grans : List (String × String)) (um : Bool),
      (cohort df [] tec metrics grans um).1 = [])
    ∧ (∀ (df : List Row) (cecs : List String) (tec : String)
       (metrics : List (String × List String)) (um : Bool),
      (cohort df cecs tec metrics [] um).1 = [])
    ∧ (∀ (df : List Row) (cecs : List String) (tec : String)
       (grans : List (String × String)) (um : Bool),
      (cohort df cecs tec [] grans um).1 = []) := by
  refine ⟨fun df tec metrics grans um => rfl, ?_, ?_⟩
  · intro df cecs tec metrics um
    have h : ∀ (cecs2 : List String) (df2 : List Row),
        (cohort_granularity_metrics df2 cecs2 tec metrics [] um).2 = [] := by
      intro cecs2
      induction cecs2 with
      | nil => intro df2; rfl
      | cons c cs ih =>
        intro df2
        simp [cohort_granularity_metrics, cohort_granularity_gr, ih]
    show (cohort_granularity_metrics df cecs tec metrics [] um).2 = []
    exact h cecs df
  · intro df cecs tec grans um
    have hone : ∀ st cec rg cg, (cohort_granularity_one tec [] um st cec rg cg).2 = [] := by
      intro st cec rg cg
      simp only [cohort_granularity_one]
      split
      · rfl
      · rfl
    have hgr : ∀ (gs : List (String × String)) (st : List Row) (cec : String),
        (cohort_granularity_gr tec [] um cec st gs).2 = [] := by
      intro gs
      induction gs with
      | nil => intro st cec; rfl
      | cons g gs ih =>
        intro st cec
        cases g with
        | mk rg cg => simp [cohort_granularity_gr, hone, ih]
    have hcgm : ∀ (cecs2 : List String) (df2 : List Row),
        (cohort_granularity_metrics df2 cecs2 tec [] grans um).2 = [] := by
      intro cecs2
      induction cecs2 with
      | nil => intro df2; rfl
      | cons c cs ih =>
        intro df2
        simp [cohort_granularity_metrics, hgr, ih]
    show (cohort_granularity_metrics df cecs tec [] grans um).2 = []
    exact hcgm cecs df

/-- C10: the in-place null-row drop persists across the whole loop nest.
First part: one combination's state transform preserves "every row is
non-null in column cPrev" for any user column cPrev — so rows dropped
because of an earlier-processed cohort event column (or the transaction
column) stay absent from the shared table, hence from every later
combination's output, even across different cohort event columns.  Second
part: once the shared table is empty, the whole remaining run — every
subsequent combination — contributes zero output rows and keeps the table
empty. -/
theorem null_drop_persists_across_combinations :
    (∀ (tec : String) (metrics : List (String × List String)) (um : Bool)
       (st : List Row) (cec rg cg cPrev : String),
      isSynName cPrev = false →
      (∀ r ∈ st, notna r cPrev = true) →
      ∀ r ∈ (cohort_granularity_one tec metrics um st cec rg cg).1,
        notna r cPrev = true)
    ∧ (∀ (cecs : List String) (tec : String) (metrics : List (String × List String))
       (grans : List (String × String)) (um : Bool),
      cohort [] cecs tec metrics grans um = ([], [])) := by
  constructor
  · intro tec metrics um st cec rg cg cPrev hsyn hall r hr
    have hmem : stripSynthetic r ∈
        ((cohort_granularity_one tec metrics um st cec rg cg).1).map stripSynthetic :=
      List.mem_map_of_mem _ hr
    rw [cohort_granularity_one_state] at hmem
    obtain ⟨r0, hr0, hstrip⟩ := List.mem_map.mp hmem
    have hr0st : r0 ∈ st := (List.mem_filter.mp hr0).1
    calc notna r cPrev = notna (stripSynthetic r) cPrev := (notna_strip r cPrev hsyn).symm
      _ = notna (stripSynthetic r0) cPrev := by rw [hstrip]
      _ = notna r0 cPrev := notna_strip r0 cPrev hsyn
      _ = true := hall r0 hr0st
  · intro cecs tec metrics grans um
    have hgr : ∀ (gs : List (String × String)) (cec : String),
        cohort_granularity_gr tec metrics um cec [] gs = ([], []) := by
      intro gs
      induction gs with
      | nil => intro cec; rfl
      | cons g gs ih =>
        intro cec
        cases g with
        | mk rg cg =>
          simp [cohort_granularity_gr,
            show cohort_granularity_one tec metrics um [] cec rg cg = ([], []) from rfl, ih]
    have hcgm : ∀ (cecs2 : List String),
        cohort_granularity_metrics [] cecs2 tec metrics grans um = ([], []) := by
      intro cecs2
      induction cecs2 with
      | nil => rfl
      | cons c cs ih => simp [cohort_granularity_metrics, hgr, ih]
    simp [cohort, hcgm]

/-- Witness for C10: a one-row state that is non-null in "x" passed through
one combination; the surviving transformed row is still non-null in "x";
and the empty state yields the empty run. -/
theorem null_drop_persists_across_combinations_witness :
    notna [("c", CellValue.vDate ⟨2020, 1, 1⟩), ("t", CellValue.vDate ⟨2020, 2, 1⟩),
      ("x", CellValue.vInt 5), ("cohort_column", CellValue.vInt 1),
      ("cohort_row", CellValue.vStr "2020-01"), ("cohort_event", CellValue.vStr "c"),
      ("row_granularity", CellValue.vStr "monthly"),
      ("col_granularity", CellValue.vStr "monthly")] "x" = true :=
  null_drop_persists_across_combinations.1 "t" [] false
    [[("c", CellValue.vDate ⟨2020, 1, 1⟩), ("t", CellValue.vDate ⟨2020, 2, 1⟩),
      ("x", CellValue.vInt 5)]] "c" "monthly" "monthly" "x" (by decide) (by decide)
    _ (by decide)

end PandasBusiness
